import Mathlib

/-!
Verification of the candidate scoring and ranking engine of the
Fantasy-Football-Ultimate-Companion draft assistant
(draft_assistant.py: need_weight, value_over_adp, blended_score,
final_rank_score, and the shortlist sort inside build_prompt).

Python floats are modelled as exact rationals; Python dicts as
association lists with first-match lookup; Python truthiness of the
binary `or` operator is modelled explicitly (0 is falsy).
-/

namespace DraftAssistant

/-- PlayerRow from draft_assistant.py: one draftable player.
Optional numeric fields are Option-valued. -/
structure PlayerRow where
  player : String
  pos : String
  team : String
  bye : Option Int
  ecr : Option ℚ
  adp : Option ℚ
  proj_pts : Option ℚ
  tier : Option Int
deriving Repr, DecidableEq

/-- RosterState from draft_assistant.py: the drafting user's team snapshot. -/
structure RosterState where
  picks_made : List String
  roster_counts : List (String × Int)
  starters_needed : List (String × Int)
  bench_slots_left : Int
  draft_round : Int
  pick_overall : Int
  turns_until_next_pick : Int
deriving Repr, DecidableEq

/-- LeagueSettings from draft_assistant.py: static league configuration. -/
structure LeagueSettings where
  teams : Int
  scoring : String
  qb_format : String
  roster_limits : List (String × Int)
deriving Repr, DecidableEq

/-- Python dict.get(k, d) over an association list of Int values. -/
def dictGetI (m : List (String × Int)) (k : String) (d : Int) : Int :=
  (m.lookup k).getD d

/-- Python truthy `x or d` for an optional int: None and 0 are falsy. -/
def pyOrI (x : Option Int) (d : Int) : Int :=
  match x with
  | none => d
  | some v => if v = 0 then d else v

/-- Python truthy `x or d` for an optional rational: None and 0.0 are falsy. -/
def pyOrQ (x : Option ℚ) (d : ℚ) : ℚ :=
  match x with
  | none => d
  | some v => if v = 0 then d else v

/-- The starters-minus-have gap computed inside need_weight:
starters = settings.roster_limits.get(pos, state.starters_needed.get(pos, 0)),
have = state.roster_counts.get(pos, 0), gap = max(starters - have, 0). -/
def gap_of (pos : String) (state : RosterState) (settings : LeagueSettings) : Int :=
  let starters := dictGetI settings.roster_limits pos (dictGetI state.starters_needed pos 0)
  let filled := dictGetI state.roster_counts pos 0
  max (starters - filled) 0

/-- need_weight from draft_assistant.py lines 41-53. -/
def need_weight (pos : String) (state : RosterState) (settings : LeagueSettings) : ℚ :=
  let gap := gap_of pos state settings
  let run_risk_boost : ℚ := if state.turns_until_next_pick ≥ 2 then 0.15 else 0.0
  let base : ℚ := 1.0 + 0.35 * (gap : ℚ) + run_risk_boost
  let base : ℚ := if pos = "RB" ∨ pos = "WR" then base + 0.1 else base
  let base : ℚ := if pos = "QB" ∧ settings.qb_format = "SF" then base + 0.6 else base
  base

/-- value_over_adp from draft_assistant.py lines 55-60. -/
def value_over_adp (p : PlayerRow) (current_pick_overall : Int) : ℚ :=
  match p.adp with
  | none => 0.0
  | some adp => adp - (current_pick_overall : ℚ)

/-- blended_score from draft_assistant.py lines 62-67. -/
def blended_score (p : PlayerRow) (state : RosterState) (settings : LeagueSettings) : ℚ :=
  let voa := value_over_adp p state.pick_overall
  let proj := pyOrQ p.proj_pts 0.0
  let tier_adj : ℚ := -0.25 * ((pyOrI p.tier 5 : Int) : ℚ)
  0.55 * (proj / 50.0) + 0.35 * (voa / 24.0) + 0.10 * tier_adj

/-- final_rank_score from draft_assistant.py lines 69-71. -/
def final_rank_score (p : PlayerRow) (state : RosterState) (settings : LeagueSettings) : ℚ :=
  blended_score p state settings * need_weight p.pos state settings

/-- The descending comparison used by the ranking sort:
sorted(key=final_rank_score, reverse=True) keeps a before b when
final_rank_score b is at most final_rank_score a. -/
def rankLE (state : RosterState) (settings : LeagueSettings) (a b : PlayerRow) : Bool :=
  decide (final_rank_score b state settings ≤ final_rank_score a state settings)

/-- Modelled from the spec (section 4.5 Ranking/Selection): stable sort by
final_rank_score descending, truncated to the given limit.  build_prompt in
the source performs exactly this step inline with limit 18. -/
def rank_candidates (candidates : List PlayerRow) (state : RosterState)
    (settings : LeagueSettings) (limit : Nat) : List PlayerRow :=
  (candidates.mergeSort (rankLE state settings)).take limit

/-- The shortlist built inside build_prompt (draft_assistant.py line 143):
sorted(candidates, key=final_rank_score, reverse=True)[:18], as a stable
descending sort truncated to 18. -/
def shortlist (candidates : List PlayerRow) (state : RosterState)
    (settings : LeagueSettings) : List PlayerRow :=
  (candidates.mergeSort (rankLE state settings)).take 18

/-! Concrete inputs used by witness theorems. -/

/-- Player with every optional field absent, position RB. -/
def pNoAdp : PlayerRow := ⟨"NoData", "RB", "T", none, none, none, none, none⟩

/-- Player with ADP 50, position WR. -/
def pAdp : PlayerRow := ⟨"HasAdp", "WR", "T", none, none, some 50, none, none⟩

/-- Roster state: two RB starters needed, none held, pick 24, 3 turns until next pick. -/
def stW : RosterState := ⟨[], [], [("RB", 2)], 5, 2, 24, 3⟩

/-- Roster state like stW but with both RB starter slots already filled. -/
def stWFilled : RosterState := ⟨[], [("RB", 2)], [("RB", 2)], 5, 2, 24, 3⟩

/-- League settings: 12-team PPR 1QB, no roster limits. -/
def gW : LeagueSettings := ⟨12, "PPR", "1QB", []⟩

/-- C1: need_weight pos state settings equals 1.0 + 0.35*gap + run_risk_boost
plus 0.1 for RB/WR and 0.6 for QB in superflex, where gap is the clamped
starters-minus-have difference with missing map entries defaulting to 0, and
the value is always at least 1.0. -/
theorem need_weight_spec (pos : String) (state : RosterState) (settings : LeagueSettings) :
    need_weight pos state settings =
      1.0 + 0.35 * ((gap_of pos state settings : Int) : ℚ)
        + (if state.turns_until_next_pick ≥ 2 then (0.15 : ℚ) else 0.0)
        + (if pos = "RB" ∨ pos = "WR" then (0.1 : ℚ) else 0)
        + (if pos = "QB" ∧ settings.qb_format = "SF" then (0.6 : ℚ) else 0)
    ∧ (1.0 : ℚ) ≤ need_weight pos state settings := by
  have hg0 : (0 : Int) ≤ gap_of pos state settings := by
    simp only [gap_of]
    exact le_max_right _ _
  have hg : (0 : ℚ) ≤ ((gap_of pos state settings : Int) : ℚ) := by exact_mod_cast hg0
  constructor
  · simp only [need_weight]
    split_ifs <;> ring
  · simp only [need_weight]
    split_ifs <;> norm_num <;> linarith

/-- C3: final_rank_score is blended_score times need_weight of the player's
position, and when blended_score is negative while need_weight exceeds 1 the
product is strictly more negative than blended_score alone. -/
theorem final_rank_score_spec (p : PlayerRow) (state : RosterState)
    (settings : LeagueSettings) :
    final_rank_score p state settings
        = blended_score p state settings * need_weight p.pos state settings
    ∧ (blended_score p state settings < 0 → 1 < need_weight p.pos state settings →
        final_rank_score p state settings < blended_score p state settings) := by
  refine ⟨rfl, ?_⟩
  intro hb hn
  have h := mul_lt_mul_of_neg_left hn hb
  simpa [final_rank_score] using h

/-- Witness for C3 at a no-data RB with two unmet RB starter slots. -/
theorem final_rank_score_spec_witness :
    final_rank_score pNoAdp stW gW < blended_score pNoAdp stW gW :=
  (final_rank_score_spec pNoAdp stW gW).2
    (by norm_num [blended_score, value_over_adp, pyOrQ, pyOrI, pNoAdp, stW, gW])
    (by
      have h : ¬("RB" = "QB" ∧ "1QB" = "SF") := by simp
      norm_num [need_weight, gap_of, dictGetI, pNoAdp, stW, gW, List.lookup, h])

/-- C4: value_over_adp returns exactly 0 when ADP is absent, returns ADP minus
the current pick number when ADP is present, and is positive when ADP exceeds
the current pick number. -/
theorem value_over_adp_spec (p : PlayerRow) (k : Int) :
    (p.adp = none → value_over_adp p k = 0)
    ∧ (∀ a : ℚ, p.adp = some a →
        value_over_adp p k = a - (k : ℚ) ∧ ((k : ℚ) < a → 0 < value_over_adp p k)) := by
  constructor
  · intro h
    norm_num [value_over_adp, h]
  · intro a h
    refine ⟨by simp [value_over_adp, h], ?_⟩
    intro hk
    simp only [value_over_adp, h]
    linarith

/-- Witness for C4: absent ADP gives 0; ADP 50 at pick 24 gives 50 - 24 > 0. -/
theorem value_over_adp_spec_witness :
    value_over_adp pNoAdp 24 = 0
    ∧ value_over_adp pAdp 24 = 50 - ((24 : Int) : ℚ)
    ∧ 0 < value_over_adp pAdp 24 :=
  ⟨(value_over_adp_spec pNoAdp 24).1 rfl,
   ((value_over_adp_spec pAdp 24).2 50 rfl).1,
   ((value_over_adp_spec pAdp 24).2 50 rfl).2 (by norm_num)⟩

/-- C8: for any roster state and settings differing only in qb_format, the QB
need weight under superflex is at least the QB need weight under 1QB. -/
theorem need_weight_qb_sf_ge (state : RosterState) (teams : Int) (scoring : String)
    (rl : List (String × Int)) :
    need_weight "QB" state ⟨teams, scoring, "1QB", rl⟩
      ≤ need_weight "QB" state ⟨teams, scoring, "SF", rl⟩ := by
  have hg0 : (0 : Int) ≤ gap_of "QB" state ⟨teams, scoring, "SF", rl⟩ := by
    simp only [gap_of]
    exact le_max_right _ _
  have hgap : gap_of "QB" state ⟨teams, scoring, "1QB", rl⟩
      = gap_of "QB" state ⟨teams, scoring, "SF", rl⟩ := rfl
  simp only [need_weight, hgap]
  split_ifs <;> simp_all <;> linarith

/-- C9: a present tier equal to 0 is scored exactly like an absent tier,
because Python truthiness treats 0 as falsy in the defaulting expression. -/
theorem blended_score_tier_zero (name pos team : String) (bye : Option Int)
    (ecr adp proj : Option ℚ) (state : RosterState) (settings : LeagueSettings) :
    blended_score ⟨name, pos, team, bye, ecr, adp, proj, some 0⟩ state settings
      = blended_score ⟨name, pos, team, bye, ecr, adp, proj, none⟩ state settings := by
  simp [blended_score, pyOrI, value_over_adp]

/-- C10: final_rank_score depends only on the candidate's pos, adp, proj_pts
and tier, the state's pick_overall, turns_until_next_pick, roster_counts and
starters_needed, and the settings' qb_format and roster_limits; player name,
team, bye, ecr, picks_made, bench_slots_left, draft_round, teams and scoring
never influence the score. -/
theorem final_rank_score_depends_only (pos : String) (adp proj : Option ℚ)
    (tier : Option Int) (pick turns : Int) (rc sn : List (String × Int))
    (qbf : String) (rl : List (String × Int))
    (name name2 team team2 : String) (bye bye2 : Option Int) (ecr ecr2 : Option ℚ)
    (picks picks2 : List String) (bench bench2 rnd rnd2 teams teams2 : Int)
    (scoring scoring2 : String) :
    final_rank_score ⟨name, pos, team, bye, ecr, adp, proj, tier⟩
        ⟨picks, rc, sn, bench, rnd, pick, turns⟩ ⟨teams, scoring, qbf, rl⟩
      = final_rank_score ⟨name2, pos, team2, bye2, ecr2, adp, proj, tier⟩
        ⟨picks2, rc, sn, bench2, rnd2, pick, turns⟩ ⟨teams2, scoring2, qbf, rl⟩ := rfl

/-- The truthy default against 0.0 agrees with the plain Option default when
the fallback is 0. -/
theorem pyOrQ_zero (x : Option ℚ) : pyOrQ x 0 = x.getD 0 := by
  cases x with
  | none => norm_num [pyOrQ]
  | some v =>
    by_cases hv : v = 0
    · norm_num [pyOrQ, hv]
    · simp [pyOrQ, hv]

/-- C2: blended_score is 0.55 times proj_pts (0 when absent) over 50, plus
0.35 times value_over_adp over 24, plus 0.10 times -0.25 times the truthy
tier default (5 when absent); the result is unbounded in both directions. -/
theorem blended_score_spec (p : PlayerRow) (state : RosterState)
    (settings : LeagueSettings) :
    blended_score p state settings =
      0.55 * (p.proj_pts.getD 0 / 50) + 0.35 * (value_over_adp p state.pick_overall / 24)
        + 0.10 * (-0.25 * ((pyOrI p.tier 5 : Int) : ℚ))
    ∧ (p.proj_pts = none →
        blended_score p state settings =
          0.35 * (value_over_adp p state.pick_overall / 24)
            + 0.10 * (-0.25 * ((pyOrI p.tier 5 : Int) : ℚ)))
    ∧ (p.tier = none →
        blended_score p state settings =
          0.55 * (p.proj_pts.getD 0 / 50)
            + 0.35 * (value_over_adp p state.pick_overall / 24) + 0.10 * (-0.25 * 5))
    ∧ (∀ M : ℚ, ∃ q : PlayerRow, ∃ s : RosterState, ∃ g : LeagueSettings,
        M < blended_score q s g)
    ∧ (∀ M : ℚ, ∃ q : PlayerRow, ∃ s : RosterState, ∃ g : LeagueSettings,
        blended_score q s g < M) := by
  refine ⟨?_, ?_, ?_, ?_, ?_⟩
  · norm_num [blended_score, pyOrQ_zero]
  · intro h
    norm_num [blended_score, pyOrQ, h]
  · intro h
    norm_num [blended_score, pyOrQ_zero, pyOrI, h]
  · intro M
    have h0 : (0 : ℚ) ≤ max M 0 := le_max_right M 0
    have hM : M ≤ max M 0 := le_max_left M 0
    refine ⟨⟨"Hi", "UNK", "T", none, none, none, some (100 * (max M 0 + 1)), some 1⟩,
      ⟨[], [], [], 0, 1, 1, 0⟩, ⟨12, "PPR", "1QB", []⟩, ?_⟩
    have hne : (100 * (max M 0 + 1) : ℚ) ≠ 0 := by positivity
    simp only [blended_score, pyOrQ, pyOrI, value_over_adp, if_neg hne]
    norm_num
    linarith
  · intro M
    have h0 : (0 : ℚ) ≤ max (-M) 0 := le_max_right (-M) 0
    have hM : -M ≤ max (-M) 0 := le_max_left (-M) 0
    refine ⟨⟨"Lo", "UNK", "T", none, none, none, some (-(100 * (max (-M) 0 + 1))), some 1⟩,
      ⟨[], [], [], 0, 1, 1, 0⟩, ⟨12, "PPR", "1QB", []⟩, ?_⟩
    have hpos : (0 : ℚ) < 100 * (max (-M) 0 + 1) := by positivity
    have hne : (-(100 * (max (-M) 0 + 1)) : ℚ) ≠ 0 := by
      intro hcontra
      nlinarith
    simp only [blended_score, pyOrQ, pyOrI, value_over_adp, if_neg hne]
    norm_num
    linarith

/-- Witness for C2 at the all-absent player: both defaulting clauses. -/
theorem blended_score_spec_witness :
    blended_score pNoAdp stW gW
      = 0.35 * (value_over_adp pNoAdp stW.pick_overall / 24)
        + 0.10 * (-0.25 * ((pyOrI pNoAdp.tier 5 : Int) : ℚ))
    ∧ blended_score pNoAdp stW gW
      = 0.55 * (pNoAdp.proj_pts.getD 0 / 50)
        + 0.35 * (value_over_adp pNoAdp stW.pick_overall / 24) + 0.10 * (-0.25 * 5) :=
  ⟨(blended_score_spec pNoAdp stW gW).2.1 rfl,
   (blended_score_spec pNoAdp stW gW).2.2.1 rfl⟩

/-- C7: with the same turns_until_next_pick and settings, a roster state with
a larger starters-minus-have gap never gets a smaller need weight. -/
theorem need_weight_mono_gap (pos : String) (s1 s2 : RosterState)
    (settings : LeagueSettings)
    (hturns : s1.turns_until_next_pick = s2.turns_until_next_pick)
    (hgap : gap_of pos s2 settings ≤ gap_of pos s1 settings) :
    need_weight pos s2 settings ≤ need_weight pos s1 settings := by
  have hq : ((gap_of pos s2 settings : Int) : ℚ) ≤ ((gap_of pos s1 settings : Int) : ℚ) := by
    exact_mod_cast hgap
  simp only [need_weight, hturns]
  split_ifs <;> linarith

/-- Witness for C7: a roster with both RB slots filled (gap 0) weighs no more
than the same roster with both still open (gap 2). -/
theorem need_weight_mono_gap_witness :
    need_weight "RB" stWFilled gW ≤ need_weight "RB" stW gW :=
  need_weight_mono_gap "RB" stW stWFilled gW rfl (by decide)

/-- Candidate A of the C6 scenario: RB, proj 300, ADP 10, tier 1. -/
def candidateA : PlayerRow := ⟨"A", "RB", "T1", none, none, some 10, some 300, some 1⟩

/-- Candidate B of the C6 scenario: QB, proj 100, ADP 50, tier 4. -/
def candidateB : PlayerRow := ⟨"B", "QB", "T2", none, none, some 50, some 100, some 4⟩

/-- Roster state of the C6 scenario at a given turns_until_next_pick. -/
def stateAB (turns : Int) : RosterState := ⟨[], [], [("RB", 2)], 0, 1, 24, turns⟩

/-- League settings of the C6 scenario: 1QB, no roster limits. -/
def settingsAB : LeagueSettings := ⟨12, "PPR", "1QB", []⟩

/-- C6: in the concrete scenario, candidate A outranks candidate B for every
nonnegative number of turns until the next pick. -/
theorem scenario_A_above_B (turns : Int) (hturns : 0 ≤ turns) :
    final_rank_score candidateB (stateAB turns) settingsAB
      < final_rank_score candidateA (stateAB turns) settingsAB := by
  have hqb : ¬("QB" = "RB" ∨ "QB" = "WR") := by simp
  have hqsf : ¬("QB" = "QB" ∧ "1QB" = "SF") := by simp
  have hrsf : ¬("RB" = "QB" ∧ "1QB" = "SF") := by simp
  have hsf : ¬("1QB" = "SF") := by decide
  have e1 : ("QB" == "RB") = false := by decide
  have e2 : ("RB" == "RB") = true := by decide
  rcases le_or_lt 2 turns with h2 | h2
  · norm_num [final_rank_score, blended_score, need_weight, gap_of, dictGetI, pyOrQ, pyOrI,
      value_over_adp, candidateA, candidateB, stateAB, settingsAB, List.lookup,
      h2, hqb, hqsf, hrsf, hsf, e1, e2]
  · norm_num [final_rank_score, blended_score, need_weight, gap_of, dictGetI, pyOrQ, pyOrI,
      value_over_adp, candidateA, candidateB, stateAB, settingsAB, List.lookup,
      not_le.mpr h2, hqb, hqsf, hrsf, hsf, e1, e2]

/-- Witness for C6 at three turns until the next pick. -/
theorem scenario_A_above_B_witness :
    final_rank_score candidateB (stateAB 3) settingsAB
      < final_rank_score candidateA (stateAB 3) settingsAB :=
  scenario_A_above_B 3 (by norm_num)

/-- First of two candidates with identical scoring-relevant fields. -/
def cTie1 : PlayerRow := ⟨"P1", "WR", "T", none, none, some 30, some 200, some 2⟩

/-- Second of two candidates with identical scoring-relevant fields. -/
def cTie2 : PlayerRow := ⟨"P2", "WR", "T", none, none, some 30, some 200, some 2⟩

/-- C5: the shortlist built inside build_prompt is the stable descending sort
by final_rank_score truncated to 18; the ranking step returns an empty list
on empty input, has length min(limit, length), is sorted descending, and with
limit at least the list length is a permutation of the input in which
equal-scored candidates keep their original relative order. -/
theorem shortlist_spec (candidates : List PlayerRow) (state : RosterState)
    (settings : LeagueSettings) (limit : Nat) :
    shortlist candidates state settings = rank_candidates candidates state settings 18
    ∧ rank_candidates ([] : List PlayerRow) state settings limit = []
    ∧ (rank_candidates candidates state settings limit).length = min limit candidates.length
    ∧ (rank_candidates candidates state settings limit).Pairwise
        (fun a b => final_rank_score b state settings ≤ final_rank_score a state settings)
    ∧ (candidates.length ≤ limit →
        (rank_candidates candidates state settings limit).Perm candidates
        ∧ ∀ a b : PlayerRow, List.Sublist [a, b] candidates →
            final_rank_score a state settings = final_rank_score b state settings →
            List.Sublist [a, b] (rank_candidates candidates state settings limit)) := by
  have htrans : ∀ a b c : PlayerRow, rankLE state settings a b = true →
      rankLE state settings b c = true → rankLE state settings a c = true := by
    intro a b c hab hbc
    simp only [rankLE, decide_eq_true_eq] at *
    exact le_trans hbc hab
  have htotal : ∀ a b : PlayerRow,
      (rankLE state settings a b || rankLE state settings b a) = true := by
    intro a b
    simp only [rankLE, Bool.or_eq_true, decide_eq_true_eq]
    exact le_total _ _
  refine ⟨rfl, ?_, ?_, ?_, ?_⟩
  · simp [rank_candidates]
  · simp [rank_candidates, List.length_take, List.length_mergeSort]
  · have hs := List.sorted_mergeSort htrans htotal candidates
    exact (List.Pairwise.sublist (List.take_sublist _ _) hs).imp
      (fun h => by simpa [rankLE, decide_eq_true_eq] using h)
  · intro hlen
    have hfull : (candidates.mergeSort (rankLE state settings)).take limit
        = candidates.mergeSort (rankLE state settings) := by
      apply List.take_of_length_le
      simpa [List.length_mergeSort] using hlen
    constructor
    · simpa [rank_candidates, hfull] using
        List.mergeSort_perm candidates (rankLE state settings)
    · intro a b hsub heq
      have hab : rankLE state settings a b = true := by
        simp only [rankLE, decide_eq_true_eq]
        exact le_of_eq heq.symm
      have hpair := List.pair_sublist_mergeSort htrans htotal hab hsub
      simpa [rank_candidates, hfull] using hpair

/-- Witness for C5: two equal-scored WRs stay in input order in the ranking. -/
theorem shortlist_spec_witness :
    List.Sublist [cTie1, cTie2] (rank_candidates [cTie1, cTie2] stW gW 5) :=
  ((shortlist_spec [cTie1, cTie2] stW gW 5).2.2.2.2 (by simp)).2 cTie1 cTie2
    (List.Sublist.refl _) rfl

end DraftAssistant
